import Mathlib

/-!
Shallow embedding of `dexscreener_bot.py`.

Modelling conventions:
* Python floats are modelled as exact rationals (`ℚ`); IEEE-754 rounding is
  out of scope, but the IEEE-754 special cases of division by zero (which the
  analyzer can hit) are modelled explicitly by the `ExtQ` type below, because
  numpy float division by zero yields `inf`/`nan` rather than raising.
* A JSON numeric leaf (the values fed to Python `float(...)`) is a `JNum`:
  either a parsable number (`num`), a present but unparsable value (`bad`,
  where `float` raises `TypeError`/`ValueError`, caught by the code and
  coerced to 0), or an absent field (`missing`, where `.get(..., 0)`
  supplies 0).
* Python string truthiness (`if api_url and api_token:`) is `truthy`:
  `None` and the empty string are falsy.
* The outcome of each outbound HTTP call is an explicit parameter:
  `Option PUResponse` / `Option RCResponse`, where `none` means the call
  raised (network error, non-2xx via raise_for_status, malformed body) and
  `some r` is the decoded JSON body.
* Timestamps are seconds since the epoch (`ℕ`); the pandas hourly resample
  bucket of a row is `timestamp / 3600`.
-/

namespace DexBot

/-- A JSON numeric leaf as consumed by the `float(... .get(..., 0))` pattern. -/
inductive JNum where
  | num (q : ℚ)
  | bad
  | missing
deriving DecidableEq, Repr

/-- Value produced by the guarded `float` conversions in the source: a parse
failure or an absent field is coerced to 0 (lines 131-134, 323-330, 347-350). -/
def parseNum : JNum → ℚ
  | JNum.num q => q
  | JNum.bad => 0
  | JNum.missing => 0

/-- Python truthiness of an optional string: `None` and `""` are falsy. -/
def truthy : Option String → Bool
  | none => false
  | some s => s != ""

/-- One element of the token-profiles list (`token_data` in `main_loop`). -/
structure TokenData where
  tokenAddress : Option String
  chainId : Option String
  developer : Option String
  icon : Option String
  description : Option String
  links : Option String
deriving DecidableEq, Repr

/-- Element 0 of the `get_token_info` result: the numeric leaves the pipeline
reads (`liquidity.usd`, `priceUsd`, `volume.h1`). -/
structure PairInfo where
  liquidity_usd : JNum
  priceUsd : JNum
  volume_h1 : JNum
deriving DecidableEq, Repr

/-- The `filters` section of the configuration; absent keys fall back to
0, 0 and +infinity respectively (`none` for `max_price_usd` means the upper
bound `float('inf')`, which every price satisfies). -/
structure FiltersConfig where
  min_liquidity_usd : Option ℚ
  min_price_usd : Option ℚ
  max_price_usd : Option ℚ
deriving DecidableEq, Repr

/-- The `volume_verification` section of the configuration. -/
structure VolVerConfig where
  use_internal_algorithm : Bool
  fake_volume_threshold : Option ℚ
  use_pocket_universe : Bool
  pu_api_url : Option String
  pu_api_token : Option String
deriving DecidableEq, Repr

/-- The `rugcheck` section of the configuration. -/
structure RugcheckConfig where
  required_status : Option String
  api_url : Option String
  api_token : Option String
deriving DecidableEq, Repr

/-- The configuration surface read by the pipeline. -/
structure Config where
  coin_blacklist : List String
  dev_blacklist : List String
  filters : FiltersConfig
  volume_verification : VolVerConfig
  rugcheck : RugcheckConfig
deriving DecidableEq, Repr

/-- Decoded body of a Pocket Universe response; a missing `volumeAuthentic`
key reads as `false` via `result.get("volumeAuthentic", False)`. -/
structure PUResponse where
  volumeAuthentic : Bool
deriving DecidableEq, Repr

/-- Decoded body of a RugCheck response; a missing `status` reads as `""`
and a missing `bundled` as `false` via the `result.get` defaults. -/
structure RCResponse where
  status : String
  bundled : Bool
deriving DecidableEq, Repr

/-- The row `session_db.add` receives (lines 352-363); the DB-assigned id and
timestamp are not part of the constructed value. -/
structure TokenSnapshot where
  token_address : Option String
  chain_id : Option String
  icon : Option String
  description : Option String
  links : Option String
  developer : Option String
  price_usd : ℚ
  liquidity : ℚ
  volume_usd : ℚ
deriving DecidableEq, Repr

/-- External interactions a single candidate can trigger, in program order. -/
inductive CallEvent where
  | fetchInfo
  | verifyVolumeCall
  | verifySafetyCall
deriving DecidableEq, Repr

/-- Embedding of `verify_volume` (lines 123-162).  The internal check rejects
when the parsed trailing volume is strictly below the threshold (default 5.0).
The external check runs only when `use_pocket_universe` is set AND both
`api_url` and `api_token` are truthy; it rejects when the provider flags the
volume or the call raises (`pu = none`).  Otherwise the function returns
`true` - in particular a missing Pocket Universe url/token silently skips
the external check. -/
def verify_volume (info : PairInfo) (cfg : Config) (pu : Option PUResponse) : Bool :=
  let vv := cfg.volume_verification
  let fakeThreshold := vv.fake_volume_threshold.getD 5
  let currentVolume := parseNum info.volume_h1
  if vv.use_internal_algorithm && decide (currentVolume < fakeThreshold) then
    false
  else if vv.use_pocket_universe && truthy vv.pu_api_url && truthy vv.pu_api_token then
    match pu with
    | none => false
    | some r => if !r.volumeAuthentic then false else true
  else
    true

/-- Embedding of `verify_rugcheck` (lines 167-201).  Fails closed (`false`)
when the url, token or token address is falsy, or when the call raises
(`rc = none`); on a decoded response it accepts exactly when the status
equals the configured required status (default Good) and `bundled` is
false.  It is a total function: it never propagates an exception. -/
def verify_rugcheck (td : TokenData) (cfg : Config) (rc : Option RCResponse) : Bool :=
  let required := cfg.rugcheck.required_status.getD "Good"
  if !(truthy cfg.rugcheck.api_url) || !(truthy cfg.rugcheck.api_token)
      || !(truthy td.tokenAddress) then
    false
  else
    match rc with
    | none => false
    | some r =>
      if r.status != required then false
      else if r.bundled then false
      else true

/-- Membership test for `token_addr in coin_blacklist` (line 307): a `None`
address is never a member of a list of strings. -/
def blMember : Option String → List String → Bool
  | none, _ => false
  | some a, bl => bl.contains a

/-- The developer-blacklist test of line 312: skipped when the developer is
falsy, otherwise a case-insensitive membership test. -/
def devBlacklisted : Option String → List String → Bool
  | none, _ => false
  | some d, bl =>
    if d == "" then false
    else (bl.map String.toLower).contains d.toLower

/-- The price-band test of line 336:
`min_price_usd (default 0) <= price <= max_price_usd (default inf)`. -/
def priceInBand (p : ℚ) (f : FiltersConfig) : Bool :=
  decide (f.min_price_usd.getD 0 ≤ p) &&
    (match f.max_price_usd with
     | none => true
     | some m => decide (p ≤ m))

/-- The `TokenSnapshot(...)` construction of lines 352-362. -/
def mkSnapshot (td : TokenData) (price liquidity volume : ℚ) : TokenSnapshot :=
  { token_address := td.tokenAddress
    chain_id := td.chainId
    icon := td.icon
    description := td.description
    links := td.links
    developer := td.developer
    price_usd := price
    liquidity := liquidity
    volume_usd := volume }

/-- The per-candidate body after a successful `get_token_info` fetch
(lines 323-363).  Returns the snapshot handed to `session_db.add` (if any)
together with the external interactions that occurred.  Note that the
`verify_rugcheck` verdict is computed (line 344) but, exactly as in the
source, a negative verdict is only logged - there is no `continue` - so
the snapshot is constructed and added regardless of `_rug`. -/
def processWithInfo (td : TokenData) (info : PairInfo) (cfg : Config)
    (pu : Option PUResponse) (rc : Option RCResponse) :
    Option TokenSnapshot × List CallEvent :=
  let liquidity := parseNum info.liquidity_usd
  let price_usd := parseNum info.priceUsd
  if liquidity < cfg.filters.min_liquidity_usd.getD 0 then
    (none, [CallEvent.fetchInfo])
  else if !(priceInBand price_usd cfg.filters) then
    (none, [CallEvent.fetchInfo])
  else if !(verify_volume info cfg pu) then
    (none, [CallEvent.fetchInfo, CallEvent.verifyVolumeCall])
  else
    let _rug := verify_rugcheck td cfg rc
    let volume_usd := parseNum info.volume_h1
    (some (mkSnapshot td price_usd liquidity volume_usd),
     [CallEvent.fetchInfo, CallEvent.verifyVolumeCall, CallEvent.verifySafetyCall])

/-- One candidate of the cycle loop (lines 304-363).  The two blacklist
stages run before the `get_token_info` fetch; an empty fetch result makes
`[0]` raise `IndexError`, modelled as `Except.error ()` - inside the loop
there is no handler for it, so it escapes to the cycle-level handler. -/
def processCandidate (td : TokenData) (infoList : List PairInfo) (cfg : Config)
    (pu : Option PUResponse) (rc : Option RCResponse) :
    Except Unit (Option TokenSnapshot × List CallEvent) :=
  if blMember td.tokenAddress cfg.coin_blacklist then
    Except.ok (none, [])
  else if devBlacklisted td.developer cfg.dev_blacklist then
    Except.ok (none, [])
  else
    match infoList with
    | [] => Except.error ()
    | info :: _ => Except.ok (processWithInfo td info cfg pu rc)

/-- A candidate together with the environment it will see: the fetched pair
list and the outcome of each provider call, were it to be made. -/
structure Cand where
  td : TokenData
  infoList : List PairInfo
  pu : Option PUResponse
  rc : Option RCResponse
deriving Repr

/-- The candidate loop of one cycle with the cycle-level exception handler
(lines 304-365 and 377-379): candidates are processed in order, their
snapshots accumulate in the session, and the final `session_db.commit`
persists them all; any exception aborts the loop, the handler rolls the
session back, and nothing from this cycle is committed. -/
def runCycleGo (cfg : Config) : List Cand → List TokenSnapshot → List TokenSnapshot
  | [], acc => acc
  | c :: rest, acc =>
    match processCandidate c.td c.infoList cfg c.pu c.rc with
    | Except.error _ => []
    | Except.ok (osnap, _) => runCycleGo cfg rest (acc ++ osnap.toList)

/-- Snapshots committed by one cycle over the given candidates. -/
def runCycle (cands : List Cand) (cfg : Config) : List TokenSnapshot :=
  runCycleGo cfg cands []

/-- A row of the analysis frame built in `analyze_token_trends`
(lines 253-259, restricted to the columns the algorithm reads). -/
structure Row where
  token_address : String
  price_usd : ℚ
  timestamp : ℕ
deriving DecidableEq, Repr

/-- Stable insertion of a row into a list sorted by ascending timestamp. -/
def insertRow (r : Row) : List Row → List Row
  | [] => [r]
  | x :: xs => if x.timestamp < r.timestamp then x :: insertRow r xs else r :: x :: xs

/-- The `df.sort_values('timestamp')` step (line 266), as a stable sort by
timestamp.  (pandas does not promise stability for ties here; none of the
verified properties depend on the order of equal timestamps.) -/
def sortRows (rows : List Row) : List Row :=
  rows.foldr insertRow []

/-- The hourly bucket a timestamp falls into under `resample('1h')`. -/
def hourBucket (t : ℕ) : ℕ := t / 3600

/-- For a list sorted by ascending timestamp, the per-hour-bucket last
observed price in ascending bucket order: the
`resample('1h').last().dropna()` step of line 271. -/
def bucketLast : List Row → List (ℕ × ℚ)
  | [] => []
  | r :: rest =>
    match bucketLast rest with
    | [] => [(hourBucket r.timestamp, r.price_usd)]
    | (b, q) :: tl =>
      if hourBucket r.timestamp == b then (b, q) :: tl
      else (hourBucket r.timestamp, r.price_usd) :: (b, q) :: tl

/-- The non-empty hourly bucket prices of a set of rows, ascending in time. -/
def bucketPrices (rows : List Row) : List ℚ :=
  (bucketLast (sortRows rows)).map Prod.snd

/-- Lexicographic order on character lists, by code point. -/
def charListLt : List Char → List Char → Bool
  | [], [] => false
  | [], _ :: _ => true
  | _ :: _, [] => false
  | c :: cs, d :: ds =>
    if c.toNat < d.toNat then true
    else if d.toNat < c.toNat then false
    else charListLt cs ds

/-- Lexicographic order on strings, by code point. -/
def strLt (a b : String) : Bool := charListLt a.data b.data

/-- Ordered insertion of a group key, keeping the list sorted and
duplicate-free: `groupby` iterates its keys sorted and deduplicated. -/
def insertKey (s : String) : List String → List String
  | [] => [s]
  | x :: xs =>
    if strLt x s then x :: insertKey s xs
    else if x == s then x :: xs
    else s :: x :: xs

/-- The distinct token addresses of the frame, in the (sorted) order
`groupby('token_address')` yields them. -/
def tokenKeys (rows : List Row) : List String :=
  rows.foldl (fun acc r => insertKey r.token_address acc) []

/-- The rows of one group. -/
def tokenRows (tok : String) (rows : List Row) : List Row :=
  rows.filter (fun r => r.token_address == tok)

/-- A numpy double restricted to the values the analyzer can produce:
an exact rational, or one of the division-by-zero specials. -/
inductive ExtQ where
  | val (q : ℚ)
  | inf
  | ninf
  | nan
deriving DecidableEq, Repr

/-- The expression `(hourly.iloc[-1] - hourly.iloc[0]) / hourly.iloc[0] * 100`
of line 274 under IEEE-754 semantics: dividing a nonzero number by zero
yields a signed infinity, `0/0` yields NaN, and no exception is raised;
away from a zero divisor the arithmetic is exact. -/
def pctChange (first last : ℚ) : ExtQ :=
  if first = 0 then
    if 0 < last then ExtQ.inf
    else if last < 0 then ExtQ.ninf
    else ExtQ.nan
  else
    ExtQ.val ((last - first) / first * 100)

/-- The comparison `change > 50` of line 275 under IEEE-754 semantics:
+inf exceeds 50, and any comparison with NaN is false. -/
def exceedsThreshold : ExtQ → Bool
  | ExtQ.val q => decide (50 < q)
  | ExtQ.inf => true
  | ExtQ.ninf => false
  | ExtQ.nan => false

/-- The per-group body of lines 270-276: resample to hourly buckets, require
at least two non-empty buckets, compute the percent change from the first
bucket to the last, and flag the token when it exceeds 50. -/
def analyzeToken (rows : List Row) : Option ExtQ :=
  let hourly := bucketPrices rows
  if hourly.length < 2 then none
  else
    let change := pctChange (hourly.headD 0) (hourly.getLastD 0)
    if exceedsThreshold change then some change else none

/-- Embedding of `analyze_token_trends` (lines 251-278) on the rows read
from the snapshot store: the flagged `(token, change)` pairs.  An empty
frame returns `[]` (line 262). -/
def analyze_token_trends (rows : List Row) : List (String × ExtQ) :=
  (tokenKeys rows).filterMap fun tok =>
    (analyzeToken (tokenRows tok rows)).map fun c => (tok, c)

/-- Replace a numeric leaf that `float` cannot parse (or that is absent)
by the literal number 0; a parsable leaf is kept as is. -/
def zeroField : JNum → JNum
  | JNum.num q => JNum.num q
  | JNum.bad => JNum.num 0
  | JNum.missing => JNum.num 0

/- Concrete fixtures used by the witnesses and counterexamples below. -/

/-- A well-formed candidate token. -/
def tdA : TokenData :=
  { tokenAddress := some "0xA", chainId := some "solana", developer := none,
    icon := none, description := none, links := none }

/-- A candidate whose address appears in the blacklist of `cfgBL`. -/
def tdB : TokenData :=
  { tokenAddress := some "0xB", chainId := some "solana", developer := none,
    icon := none, description := none, links := none }

/-- A candidate for which the pair-info fetch will come back empty. -/
def tdE : TokenData :=
  { tokenAddress := some "0xE", chainId := some "solana", developer := none,
    icon := none, description := none, links := none }

/-- A configuration with no blacklists and no numeric floors, internal volume
check enabled at the default threshold, the external volume provider
disabled, and RugCheck credentials present. -/
def cfgOpen : Config :=
  { coin_blacklist := []
    dev_blacklist := []
    filters := { min_liquidity_usd := none, min_price_usd := none, max_price_usd := none }
    volume_verification :=
      { use_internal_algorithm := true, fake_volume_threshold := none,
        use_pocket_universe := false, pu_api_url := none, pu_api_token := none }
    rugcheck := { required_status := none, api_url := some "https://rc", api_token := some "tok" } }

/-- Like `cfgOpen` but with `0xB` on the coin blacklist. -/
def cfgBL : Config :=
  { cfgOpen with coin_blacklist := ["0xB"] }

/-- Like `cfgOpen` but with a 50000 USD liquidity floor. -/
def cfgHighLiq : Config :=
  { cfgOpen with filters :=
      { min_liquidity_usd := some 50000, min_price_usd := none, max_price_usd := none } }

/-- Like `cfgOpen` but with the external volume provider enabled while its
url and token are absent from the configuration. -/
def cfgPUMissing : Config :=
  { cfgOpen with volume_verification :=
      { use_internal_algorithm := true, fake_volume_threshold := none,
        use_pocket_universe := true, pu_api_url := none, pu_api_token := none } }

/-- Like `cfgOpen` but with the RugCheck url absent. -/
def cfgNoRC : Config :=
  { cfgOpen with rugcheck :=
      { required_status := none, api_url := none, api_token := some "tok" } }

/-- Pair info that passes every numeric stage of `cfgOpen`. -/
def infoGood : PairInfo :=
  { liquidity_usd := JNum.num 20000, priceUsd := JNum.num 1, volume_h1 := JNum.num 10 }

/-- Pair info whose trailing volume 2 is below the default threshold 5. -/
def infoLowVol : PairInfo :=
  { liquidity_usd := JNum.num 20000, priceUsd := JNum.num 1, volume_h1 := JNum.num 2 }

/-- A RugCheck response with a non-required status. -/
def rcBad : Option RCResponse := some { status := "Bad", bundled := false }

/-- A RugCheck response meeting both acceptance conditions. -/
def rcGood : Option RCResponse := some { status := "Good", bundled := false }

/-- A candidate whose pair-info fetch returns the empty list. -/
def candEmpty : Cand := { td := tdE, infoList := [], pu := none, rc := none }

/-- A candidate that passes every stage under `cfgOpen`. -/
def candGood : Cand := { td := tdA, infoList := [infoGood], pu := none, rc := rcGood }

/-- History for one token whose two hourly buckets are priced 1 and 8/5. -/
def rows46 : List Row :=
  [{ token_address := "A", price_usd := 1, timestamp := 0 },
   { token_address := "A", price_usd := 8/5, timestamp := 3600 }]

/-- History for one token whose two hourly buckets are priced 1 and 7/5. -/
def rows14 : List Row :=
  [{ token_address := "A", price_usd := 1, timestamp := 0 },
   { token_address := "A", price_usd := 7/5, timestamp := 3600 }]

/-- History for one token with two observations inside a single hourly
bucket. -/
def rows1 : List Row :=
  [{ token_address := "A", price_usd := 1, timestamp := 0 },
   { token_address := "A", price_usd := 8/5, timestamp := 1800 }]

/-- History whose first hourly bucket is priced 0 and whose second is
priced 1. -/
def rowsZ : List Row :=
  [{ token_address := "T", price_usd := 0, timestamp := 0 },
   { token_address := "T", price_usd := 1, timestamp := 3600 }]

/-- C1: the claim says a snapshot is persisted only when every admission
stage, including safety verification, passes.  On this concrete run the
safety check `verify_rugcheck` returns `false`, yet the per-candidate body
still hands the constructed snapshot to the session: the negative verdict
at line 344 is only logged, the `continue` is missing, so lines 352-363 run
regardless.  This contradicts the admission contract stated in the module
docstring (only accept tokens marked Good and not bundled) and the log text
of line 345, which announces a skip that does not happen. -/
theorem snapshot_added_despite_safety_rejection :
    verify_rugcheck tdA cfgOpen rcBad = false ∧
    processCandidate tdA [infoGood] cfgOpen none rcBad =
      Except.ok (some (mkSnapshot tdA 1 20000 10),
        [CallEvent.fetchInfo, CallEvent.verifyVolumeCall, CallEvent.verifySafetyCall]) :=
  ⟨rfl, rfl⟩

/-- C10: an empty snapshot history is a valid input on which the analyzer
returns the empty list of signals (line 262 returns `[]` for an empty
frame). -/
theorem analyze_empty_history : analyze_token_trends [] = [] := rfl

/-- Helper for the cycle loop: once some candidate raises, nothing from the
cycle is committed, whatever snapshots had accumulated before it. -/
lemma runCycleGo_error_of_mem (cfg : Config) (c : Cand) :
    ∀ (cands : List Cand) (acc : List TokenSnapshot), c ∈ cands →
      processCandidate c.td c.infoList cfg c.pu c.rc = Except.error () →
      runCycleGo cfg cands acc = [] := by
  intro cands
  induction cands with
  | nil => intro acc h; exact absurd h (List.not_mem_nil c)
  | cons d rest ih =>
    intro acc hmem herr
    rcases List.mem_cons.mp hmem with heq | htail
    · subst heq
      rw [runCycleGo, herr]
    · rw [runCycleGo]
      cases hd : processCandidate d.td d.infoList cfg d.pu d.rc with
      | error e => rfl
      | ok out => exact ih _ htail herr

/-- C2 counterexample: the claim says an empty `fetchTokenInfo` result is
caught and only that candidate is skipped, the rest of the cycle
continuing.  Concretely, `candGood` alone yields a committed snapshot, but
when it follows `candEmpty` (whose fetch returns `[]`, so `[0]` raises
`IndexError` at line 319 with no per-candidate handler) the whole cycle
commits nothing: the remaining candidate was never processed. -/
theorem empty_fetch_aborts_cycle_cex :
    runCycle [candEmpty, candGood] cfgOpen = [] ∧
    runCycle [candGood] cfgOpen = [mkSnapshot tdA 1 20000 10] :=
  ⟨rfl, rfl⟩

/-- C2 amended: an empty fetch result raises `IndexError`, which is caught
only by the cycle-level handler of line 377: the cycle is aborted, the
session is rolled back, and no snapshot from the cycle is committed - the
remaining candidates of the cycle are not processed.  (The loop itself
survives to the next cycle.) -/
theorem error_candidate_aborts_cycle (cands : List Cand) (cfg : Config) (c : Cand)
    (hmem : c ∈ cands)
    (herr : processCandidate c.td c.infoList cfg c.pu c.rc = Except.error ()) :
    runCycle cands cfg = [] :=
  runCycleGo_error_of_mem cfg c cands [] hmem herr

/-- Witness for `error_candidate_aborts_cycle` at the concrete cycle of the
counterexample. -/
theorem error_candidate_aborts_cycle_witness :
    runCycle [candEmpty, candGood] cfgOpen = [] :=
  error_candidate_aborts_cycle [candEmpty, candGood] cfgOpen candEmpty
    (List.mem_cons_self candEmpty [candGood]) rfl

/-- C6: with the internal algorithm enabled, a trailing 1-hour volume
strictly below the configured threshold (default 5.0) makes
`verify_volume` return `false`, whatever the external provider would have
answered (lines 138-141 return before the provider block). -/
theorem internal_volume_check_rejects (info : PairInfo) (cfg : Config)
    (pu : Option PUResponse) (v : ℚ)
    (hint : cfg.volume_verification.use_internal_algorithm = true)
    (hvol : info.volume_h1 = JNum.num v)
    (hlt : v < cfg.volume_verification.fake_volume_threshold.getD 5) :
    verify_volume info cfg pu = false := by
  simp [verify_volume, hint, hvol, parseNum, hlt]

/-- Witness for `internal_volume_check_rejects`: volume 2 against the
default threshold 5. -/
theorem internal_volume_check_rejects_witness :
    verify_volume infoLowVol cfgOpen (some { volumeAuthentic := true }) = false :=
  internal_volume_check_rejects infoLowVol cfgOpen (some { volumeAuthentic := true }) 2
    rfl rfl (by norm_num [cfgOpen])

/-- C5: a blacklisted token address is rejected with no external interaction
at all (the blacklist test of line 307 precedes even the pair-info fetch),
and a candidate below the liquidity floor is rejected before either
verification function is invoked (line 332 precedes lines 340 and 344). -/
theorem blacklist_liquidity_short_circuit :
    (∀ (td : TokenData) (infoList : List PairInfo) (cfg : Config)
        (pu : Option PUResponse) (rc : Option RCResponse),
      blMember td.tokenAddress cfg.coin_blacklist = true →
      processCandidate td infoList cfg pu rc = Except.ok (none, []))
    ∧ (∀ (td : TokenData) (info : PairInfo) (rest : List PairInfo) (cfg : Config)
        (pu : Option PUResponse) (rc : Option RCResponse),
      parseNum info.liquidity_usd < cfg.filters.min_liquidity_usd.getD 0 →
      ∃ evs, processCandidate td (info :: rest) cfg pu rc = Except.ok (none, evs) ∧
        CallEvent.verifyVolumeCall ∉ evs ∧ CallEvent.verifySafetyCall ∉ evs) := by
  constructor
  · intro td infoList cfg pu rc h
    simp [processCandidate, h]
  · intro td info rest cfg pu rc h
    by_cases h1 : blMember td.tokenAddress cfg.coin_blacklist = true
    · exact ⟨[], by simp [processCandidate, h1]⟩
    · by_cases h2 : devBlacklisted td.developer cfg.dev_blacklist = true
      · exact ⟨[], by simp [processCandidate, h1, h2]⟩
      · refine ⟨[CallEvent.fetchInfo], ?_⟩
        refine ⟨?_, by simp, by simp⟩
        simp [processCandidate, h1, h2, processWithInfo, h]

/-- Witness for `blacklist_liquidity_short_circuit`: the blacklisted token
`0xB`, and a 20000 USD candidate against a 50000 USD floor. -/
theorem blacklist_liquidity_short_circuit_witness :
    processCandidate tdB [] cfgBL none none = Except.ok (none, []) ∧
    ∃ evs, processCandidate tdA [infoGood] cfgHighLiq none none = Except.ok (none, evs) ∧
      CallEvent.verifyVolumeCall ∉ evs ∧ CallEvent.verifySafetyCall ∉ evs :=
  ⟨blacklist_liquidity_short_circuit.1 tdB [] cfgBL none none rfl,
   blacklist_liquidity_short_circuit.2 tdA infoGood [] cfgHighLiq none none
     (by norm_num [infoGood, cfgHighLiq, parseNum])⟩

/-- C7: `verify_rugcheck` fails closed - it returns `false` when the
provider url, token or the candidate address is missing (falsy), or when
the provider call raises (`rc = none`), never propagating an exception -
and on a decoded response it accepts exactly when the status equals the
configured required status and the bundled flag is false. -/
theorem rugcheck_fail_closed_accept_iff :
    (∀ (td : TokenData) (cfg : Config) (rc : Option RCResponse),
      (truthy cfg.rugcheck.api_url = false ∨ truthy cfg.rugcheck.api_token = false ∨
        truthy td.tokenAddress = false ∨ rc = none) →
      verify_rugcheck td cfg rc = false)
    ∧ (∀ (td : TokenData) (cfg : Config) (r : RCResponse),
      truthy cfg.rugcheck.api_url = true → truthy cfg.rugcheck.api_token = true →
      truthy td.tokenAddress = true →
      (verify_rugcheck td cfg (some r) = true ↔
        (r.status = cfg.rugcheck.required_status.getD "Good" ∧ r.bundled = false))) := by
  constructor
  · intro td cfg rc h
    rcases h with h | h | h | h
    · simp [verify_rugcheck, h]
    · simp [verify_rugcheck, h]
    · simp [verify_rugcheck, h]
    · subst h
      simp [verify_rugcheck]
  · intro td cfg r h1 h2 h3
    simp only [verify_rugcheck, h1, h2, h3, Bool.not_true, Bool.or_self, Bool.false_or]
    by_cases hs : r.status = cfg.rugcheck.required_status.getD "Good"
    · by_cases hb : r.bundled = true
      · simp [hs, hb]
      · simp [hs, hb]
    · simp [hs, bne_iff_ne]

/-- Witness for `rugcheck_fail_closed_accept_iff`: a missing provider url
rejects, and with full configuration a Good, unbundled response accepts. -/
theorem rugcheck_fail_closed_accept_iff_witness :
    verify_rugcheck tdA cfgNoRC rcGood = false ∧
    (verify_rugcheck tdA cfgOpen (some { status := "Good", bundled := false }) = true ↔
      (({ status := "Good", bundled := false } : RCResponse).status =
          cfgOpen.rugcheck.required_status.getD "Good" ∧
        ({ status := "Good", bundled := false } : RCResponse).bundled = false)) :=
  ⟨rugcheck_fail_closed_accept_iff.1 tdA cfgNoRC rcGood (Or.inl rfl),
   rugcheck_fail_closed_accept_iff.2 tdA cfgOpen { status := "Good", bundled := false }
     rfl rfl rfl⟩

/-- C8: a numeric leaf that is absent or that `float` cannot parse does not
crash the candidate: the guarded conversions of lines 323-330, 347-350 and
131-134 coerce it to 0, and the run is indistinguishable from one where
the field held the number 0; processing always completes with a decision
(the per-candidate body raises nothing once the pair info is present). -/
theorem numeric_parse_failure_is_zero (td : TokenData) (l p v : JNum)
    (rest : List PairInfo) (cfg : Config) (pu : Option PUResponse)
    (rc : Option RCResponse) :
    processCandidate td (PairInfo.mk l p v :: rest) cfg pu rc =
      processCandidate td (PairInfo.mk (zeroField l) (zeroField p) (zeroField v) :: rest) cfg pu rc
    ∧ ∃ out,
      processCandidate td (PairInfo.mk l p v :: rest) cfg pu rc = Except.ok out := by
  constructor
  · cases l <;> cases p <;> cases v <;> rfl
  · by_cases h1 : blMember td.tokenAddress cfg.coin_blacklist = true
    · exact ⟨(none, []), by simp [processCandidate, h1]⟩
    · by_cases h2 : devBlacklisted td.developer cfg.dev_blacklist = true
      · exact ⟨(none, []), by simp [processCandidate, h1, h2]⟩
      · refine ⟨processWithInfo td (PairInfo.mk l p v) cfg pu rc, ?_⟩
        simp [processCandidate, h1, h2]

/-- C9: when the external volume provider is enabled but its url or token is
missing from the configuration, `verify_volume` silently skips the
external check and admits any candidate that the internal check does not
reject (lines 149-161 run only when both credentials are truthy, and the
function then falls through to `return True`) - whereas the same missing
configuration makes `verify_rugcheck` fail closed. -/
theorem pu_missing_config_skips_check :
    (∀ (info : PairInfo) (cfg : Config) (pu : Option PUResponse),
      cfg.volume_verification.use_pocket_universe = true →
      (truthy cfg.volume_verification.pu_api_url = false ∨
        truthy cfg.volume_verification.pu_api_token = false) →
      (cfg.volume_verification.use_internal_algorithm = false ∨
        ¬ parseNum info.volume_h1 < cfg.volume_verification.fake_volume_threshold.getD 5) →
      verify_volume info cfg pu = true)
    ∧ (∀ (td : TokenData) (cfg : Config) (rc : Option RCResponse),
      (truthy cfg.rugcheck.api_url = false ∨ truthy cfg.rugcheck.api_token = false) →
      verify_rugcheck td cfg rc = false) := by
  constructor
  · intro info cfg pu hpu hmiss hpass
    rcases hmiss with h | h <;> rcases hpass with h2 | h2 <;>
      simp [verify_volume, h, h2, hpu]
  · intro td cfg rc h
    rcases h with h | h <;> simp [verify_rugcheck, h]

/-- Witness for `pu_missing_config_skips_check`: Pocket Universe enabled
with no credentials admits a passing candidate, while RugCheck with no url
rejects. -/
theorem pu_missing_config_skips_check_witness :
    verify_volume infoGood cfgPUMissing none = true ∧
    verify_rugcheck tdA cfgNoRC rcGood = false :=
  ⟨pu_missing_config_skips_check.1 infoGood cfgPUMissing none rfl (Or.inl rfl)
      (Or.inr (by norm_num [infoGood, cfgPUMissing, parseNum])),
   pu_missing_config_skips_check.2 tdA cfgNoRC rcGood (Or.inl rfl)⟩

/-- Membership in an ordered key insertion. -/
lemma mem_insertKey (a s : String) (l : List String) :
    a ∈ insertKey s l ↔ a = s ∨ a ∈ l := by
  induction l with
  | nil => simp [insertKey]
  | cons x xs ih =>
    by_cases h1 : strLt x s = true
    · simp [insertKey, h1, ih]
      tauto
    · by_cases h2 : (x == s) = true
      · have hx : x = s := eq_of_beq h2
        subst hx
        simp [insertKey, h1]
      · simp [insertKey, h1, h2]

/-- The group keys are exactly the token addresses occurring in the frame. -/
lemma mem_tokenKeys (rows : List Row) (a : String) :
    a ∈ tokenKeys rows ↔ a ∈ rows.map Row.token_address := by
  have h : ∀ (l : List Row) (acc : List String),
      a ∈ List.foldl (fun acc r => insertKey r.token_address acc) acc l ↔
        a ∈ acc ∨ a ∈ l.map Row.token_address := by
    intro l
    induction l with
    | nil => intro acc; simp
    | cons r rest ih =>
      intro acc
      rw [List.foldl_cons, ih, mem_insertKey]
      simp only [List.map_cons, List.mem_cons]
      tauto
  rw [tokenKeys, h rows []]
  simp

/-- A pair is flagged exactly when its token is a group key and the
per-group analysis flags that group. -/
lemma mem_analyze (rows : List Row) (tok : String) (c : ExtQ) :
    (tok, c) ∈ analyze_token_trends rows ↔
      tok ∈ tokenKeys rows ∧ analyzeToken (tokenRows tok rows) = some c := by
  rw [analyze_token_trends, List.mem_filterMap]
  constructor
  · rintro ⟨a, ha, hmap⟩
    rcases Option.map_eq_some'.mp hmap with ⟨b, hb, hba⟩
    have h1 : a = tok := congrArg Prod.fst hba
    have h2 : b = c := congrArg Prod.snd hba
    subst h1; subst h2
    exact ⟨ha, hb⟩
  · rintro ⟨h1, h2⟩
    exact ⟨tok, h1, by rw [h2]; rfl⟩

/-- Unfolding of the per-group analysis: a group is flagged with change `c`
exactly when it has at least two non-empty hourly buckets, `c` is the
percent change from the first to the last bucket, and `c` exceeds the
threshold. -/
lemma analyzeToken_eq_some (rows : List Row) (c : ExtQ) :
    analyzeToken rows = some c ↔
      2 ≤ (bucketPrices rows).length ∧
      c = pctChange ((bucketPrices rows).headD 0) ((bucketPrices rows).getLastD 0) ∧
      exceedsThreshold c = true := by
  simp only [analyzeToken]
  by_cases hlen : (bucketPrices rows).length < 2
  · simp only [if_pos hlen]
    constructor
    · intro h; simp at h
    · rintro ⟨h2, _, _⟩; omega
  · have hlen2 : 2 ≤ (bucketPrices rows).length := by omega
    simp only [if_neg hlen]
    by_cases hex : exceedsThreshold
        (pctChange ((bucketPrices rows).headD 0) ((bucketPrices rows).getLastD 0)) = true
    · simp only [hex, if_true, Option.some.injEq]
      constructor
      · intro h; subst h; exact ⟨hlen2, rfl, hex⟩
      · rintro ⟨_, h, _⟩; exact h.symm
    · simp only [hex, if_false]
      constructor
      · intro h; simp at h
      · rintro ⟨_, hc, he⟩; subst hc; exact absurd he hex

/-- C4: a token is flagged exactly when it has at least two non-empty
hourly buckets and the percent change from its first to its last bucket
strictly exceeds 50 (the iff is stated away from a zero first-bucket
price, where the formula is the exact rational of line 274); concretely,
bucket prices 1 and 8/5 yield the signal with change exactly 60, bucket
prices 1 and 7/5 yield no signal, and a single hourly bucket yields no
signal. -/
theorem trend_signal_threshold_iff :
    (∀ (rows : List Row) (tok : String),
      tok ∈ rows.map Row.token_address →
      (bucketPrices (tokenRows tok rows)).headD 0 ≠ 0 →
      ((∃ c, (tok, c) ∈ analyze_token_trends rows) ↔
        (2 ≤ (bucketPrices (tokenRows tok rows)).length ∧
          50 < ((bucketPrices (tokenRows tok rows)).getLastD 0 -
              (bucketPrices (tokenRows tok rows)).headD 0) /
            (bucketPrices (tokenRows tok rows)).headD 0 * 100)))
    ∧ analyze_token_trends rows46 = [("A", ExtQ.val 60)]
    ∧ analyze_token_trends rows14 = []
    ∧ analyze_token_trends rows1 = [] := by
  refine ⟨?_, ?_, ?_, ?_⟩
  · intro rows tok hmem hne
    constructor
    · rintro ⟨c, hc⟩
      rw [mem_analyze] at hc
      obtain ⟨hk, ha⟩ := hc
      rw [analyzeToken_eq_some] at ha
      obtain ⟨hlen, hceq, hex⟩ := ha
      refine ⟨hlen, ?_⟩
      rw [pctChange, if_neg hne] at hceq
      subst hceq
      simpa [exceedsThreshold] using hex
    · rintro ⟨hlen, hgt⟩
      refine ⟨ExtQ.val (((bucketPrices (tokenRows tok rows)).getLastD 0 -
          (bucketPrices (tokenRows tok rows)).headD 0) /
          (bucketPrices (tokenRows tok rows)).headD 0 * 100), ?_⟩
      rw [mem_analyze]
      refine ⟨(mem_tokenKeys rows tok).mpr hmem, ?_⟩
      rw [analyzeToken_eq_some]
      exact ⟨hlen, by rw [pctChange, if_neg hne],
        by simpa [exceedsThreshold] using hgt⟩
  · have hk : tokenKeys rows46 = ["A"] := rfl
    have hb : bucketPrices (tokenRows "A" rows46) = [1, 8/5] := rfl
    have hp : pctChange (1 : ℚ) (8/5) = ExtQ.val 60 := by
      rw [pctChange]; norm_num
    have ha : analyzeToken (tokenRows "A" rows46) = some (ExtQ.val 60) := by
      rw [analyzeToken, hb]
      simp [hp, exceedsThreshold]
      norm_num
    rw [analyze_token_trends, hk]
    simp [ha]
  · have hk : tokenKeys rows14 = ["A"] := rfl
    have hb : bucketPrices (tokenRows "A" rows14) = [1, 7/5] := rfl
    have hp : pctChange (1 : ℚ) (7/5) = ExtQ.val 40 := by
      rw [pctChange]; norm_num
    have ha : analyzeToken (tokenRows "A" rows14) = none := by
      rw [analyzeToken, hb]
      simp [hp, exceedsThreshold]
      norm_num
    rw [analyze_token_trends, hk]
    simp [ha]
  · have ha : analyzeToken (tokenRows "A" rows1) = none := rfl
    have hk : tokenKeys rows1 = ["A"] := rfl
    rw [analyze_token_trends, hk]
    simp [ha]

/-- Witness for `trend_signal_threshold_iff` at the two-bucket history
`rows46`, whose first bucket price 1 is nonzero. -/
theorem trend_signal_threshold_iff_witness :
    (∃ c, ("A", c) ∈ analyze_token_trends rows46) ↔
      (2 ≤ (bucketPrices (tokenRows "A" rows46)).length ∧
        50 < ((bucketPrices (tokenRows "A" rows46)).getLastD 0 -
            (bucketPrices (tokenRows "A" rows46)).headD 0) /
          (bucketPrices (tokenRows "A" rows46)).headD 0 * 100) :=
  trend_signal_threshold_iff.1 rows46 "A" (by simp [rows46])
    (by rw [show bucketPrices (tokenRows "A" rows46) = [1, 8/5] from rfl]; norm_num)

/-- C3 counterexample: a token whose first non-empty hourly bucket has
price 0 and whose second has price 1.  No arithmetic fault occurs (numpy
float division by zero yields `inf`), but contrary to the claim a
PumpSignal IS emitted, with an infinite percent change, because
`inf > 50` holds. -/
theorem zero_first_bucket_signal_cex :
    analyze_token_trends rowsZ = [("T", ExtQ.inf)] := rfl

/-- C3 amended: a zero first-bucket price never raises an arithmetic fault
(the division yields an IEEE special value, and the analysis is total),
but it is not treated as "no signal": with at least two buckets a
PumpSignal is emitted exactly when the last bucket price is positive (the
change being `+inf`), and any signal emitted for such a token carries the
infinite change. -/
theorem zero_first_bucket_no_fault_signal_iff :
    ∀ (rows : List Row) (tok : String),
      tok ∈ rows.map Row.token_address →
      2 ≤ (bucketPrices (tokenRows tok rows)).length →
      (bucketPrices (tokenRows tok rows)).headD 0 = 0 →
      (((∃ c, (tok, c) ∈ analyze_token_trends rows) ↔
          0 < (bucketPrices (tokenRows tok rows)).getLastD 0)
        ∧ ∀ c, (tok, c) ∈ analyze_token_trends rows → c = ExtQ.inf) := by
  intro rows tok hmem hlen h0
  have hpct : pctChange ((bucketPrices (tokenRows tok rows)).headD 0)
      ((bucketPrices (tokenRows tok rows)).getLastD 0) =
      (if 0 < (bucketPrices (tokenRows tok rows)).getLastD 0 then ExtQ.inf
       else if (bucketPrices (tokenRows tok rows)).getLastD 0 < 0 then ExtQ.ninf
       else ExtQ.nan) := by
    rw [pctChange, if_pos h0]
  have key : ∀ c, analyzeToken (tokenRows tok rows) = some c →
      c = ExtQ.inf ∧ 0 < (bucketPrices (tokenRows tok rows)).getLastD 0 := by
    intro c hc
    rw [analyzeToken_eq_some] at hc
    obtain ⟨_, hceq, hex⟩ := hc
    by_cases hl : 0 < (bucketPrices (tokenRows tok rows)).getLastD 0
    · subst hceq
      rw [hpct, if_pos hl]
      exact ⟨rfl, hl⟩
    · exfalso
      subst hceq
      rw [hpct, if_neg hl] at hex
      by_cases hl2 : (bucketPrices (tokenRows tok rows)).getLastD 0 < 0
      · rw [if_pos hl2] at hex; simp [exceedsThreshold] at hex
      · rw [if_neg hl2] at hex; simp [exceedsThreshold] at hex
  refine ⟨⟨?_, ?_⟩, ?_⟩
  · rintro ⟨c, hc⟩
    rw [mem_analyze] at hc
    exact (key c hc.2).2
  · intro hl
    refine ⟨ExtQ.inf, ?_⟩
    rw [mem_analyze]
    refine ⟨(mem_tokenKeys rows tok).mpr hmem, ?_⟩
    rw [analyzeToken_eq_some]
    exact ⟨hlen, by rw [hpct, if_pos hl], rfl⟩
  · intro c hc
    rw [mem_analyze] at hc
    exact (key c hc.2).1

/-- Witness for `zero_first_bucket_no_fault_signal_iff` at the concrete
history `rowsZ`. -/
theorem zero_first_bucket_no_fault_signal_iff_witness :
    ((∃ c, ("T", c) ∈ analyze_token_trends rowsZ) ↔
      0 < (bucketPrices (tokenRows "T" rowsZ)).getLastD 0)
    ∧ ∀ c, ("T", c) ∈ analyze_token_trends rowsZ → c = ExtQ.inf :=
  zero_first_bucket_no_fault_signal_iff rowsZ "T" (by simp [rowsZ]) (by decide) rfl

end DexBot
